import Mathlib

/-!
Verification of the deepfake-detection pipeline (image/video analyzers, frame
sampler, detector facade) against its specification.

The Python source is shallowly embedded: raw model replies are lists of
characters, Python dicts are association lists from keys to a JSON-value type,
and all I/O (file system, the remote Gemini model, OpenCV frame decoding) is
supplied through explicit environment records so that every analysis function
is a total, executable Lean function of its inputs.

Modelling notes, stated once here:
* Python computes the suspicious-frame ratio comparisons and the derived
  confidence numbers in IEEE-754 doubles; this embedding uses exact
  integer/rational arithmetic (for example the test `ratio > 0.3` becomes
  `10 * s > 3 * t`, and `int(ratio * 100)` becomes the floored natural
  division `100 * s / t`).  No theorem or concrete input below sits at a
  point where the two semantics differ.
* The model of `json.loads` accepts the JSON fragment actually requested by
  the prompts: objects, arrays, double-quoted strings with the simple escape
  set, integers, `true`/`false`/`null`.  It is strict in the same places
  `json.loads` is strict (no trailing text, no trailing commas, no leading
  zeros, no raw control characters inside strings); real-number literals and
  unicode escapes are outside the model.
* `str.lower` is modelled by `Char.toLower`, which agrees on ASCII.
-/

set_option maxRecDepth 20000

namespace Deepfake

/-- Text of a raw model reply, modelled as a list of characters (Python `str`
indexing, slicing, `find`/`rfind` and `in` are positional, so lists are the
direct embedding). -/
abbrev Str := List Char

/-- JSON-like values: the dynamic values stored in the Python dicts the
analyzers build and return. Numbers are integers (see module notes). -/
inductive JValue where
  | jnull
  | jbool (b : Bool)
  | jnum (n : Int)
  | jstr (s : Str)
  | jarr (elems : List JValue)
  | jobj (fields : List (Str × JValue))

/-- Python dict with string keys, as an insertion-ordered association list
with unique keys. -/
abbrev Dict := List (Str × JValue)

/-- Dict lookup, `d[k]` / `k in d`: first (unique) matching key. -/
def dget : Dict → Str → Option JValue
  | [], _ => none
  | (k2, v) :: rest, k => if k2 == k then some v else dget rest k

/-- Dict assignment `d[k] = v`: replaces the value at an existing key in
place, otherwise appends the new key at the end (Python insertion order). -/
def dset : Dict → Str → JValue → Dict
  | [], k, v => [(k, v)]
  | (k2, v2) :: rest, k, v =>
    if k2 == k then (k2, v) :: rest else (k2, v2) :: dset rest k v

/-- Python `dict.setdefault(k, v)`: inserts `k ↦ v` only when `k` is absent,
never overwriting a present value. -/
def dsetdefault (d : Dict) (k : Str) (v : JValue) : Dict :=
  match dget d k with
  | some _ => d
  | none => dset d k v

/-- Python `str.lower()` (ASCII-faithful). -/
def lower (s : Str) : Str := s.map Char.toLower

/-- Python `keyword in text` substring test: the needle occurs contiguously
at some position of the text. -/
def containsSub (needle : Str) : Str → Bool
  | [] => needle.isPrefixOf []
  | c :: rest => needle.isPrefixOf (c :: rest) || containsSub needle rest

/-- Python `any(keyword in text for keyword in kws)`. -/
def containsAny (kws : List Str) (text : Str) : Bool :=
  kws.any (fun k => containsSub k text)

/-- Python `str.split(sep)` for a single-character separator: splits on every
occurrence, keeping empty segments. -/
def splitOnChar (c : Char) : Str → List Str
  | [] => [[]]
  | x :: xs =>
    if x = c then [] :: splitOnChar c xs
    else
      match splitOnChar c xs with
      | [] => [[x]]
      | seg :: rest => (x :: seg) :: rest

/-- Characters removed by Python `str.strip()` with no argument. -/
def isPyWhitespace (c : Char) : Bool :=
  c = ' ' || c = '\t' || c = '\n' || c = '\r' || c = Char.ofNat 11 || c = Char.ofNat 12

/-- Python `str.strip()`. -/
def strip (s : Str) : Str :=
  ((s.dropWhile isPyWhitespace).reverse.dropWhile isPyWhitespace).reverse

/-- Python `str.find(c)` for a single character: index of the first
occurrence, `none` standing for the sentinel `-1`. -/
def findChar (c : Char) : Str → Option Nat
  | [] => none
  | x :: xs => if x = c then some 0 else (findChar c xs).map (· + 1)

/-- Python `str.rfind(c)` for a single character: index of the last
occurrence, `none` standing for the sentinel `-1`. -/
def rfindChar (c : Char) (s : Str) : Option Nat :=
  (findChar c s.reverse).map (fun i => s.length - 1 - i)

/-- Whitespace accepted between tokens by `json.loads`. -/
def isJsonWs (c : Char) : Bool :=
  c = ' ' || c = '\t' || c = '\n' || c = '\r'

/-- Drops JSON inter-token whitespace. -/
def skipWs (s : Str) : Str := s.dropWhile isJsonWs

/-- Translation of the two-character escapes accepted inside JSON string
literals (the `\\uXXXX` form is outside the model, see module notes). -/
def escChar (c : Char) : Option Char :=
  if c = '"' then some '"'
  else if c = '\\' then some '\\'
  else if c = '/' then some '/'
  else if c = 'b' then some (Char.ofNat 8)
  else if c = 'f' then some (Char.ofNat 12)
  else if c = 'n' then some '\n'
  else if c = 'r' then some '\r'
  else if c = 't' then some '\t'
  else none

/-- Parses the body of a JSON string literal after the opening quote,
returning the decoded text and the remainder after the closing quote.
Raw control characters are rejected as `json.loads` rejects them. -/
def parseStringBody : Str → Option (Str × Str)
  | [] => none
  | '"' :: rest => some ([], rest)
  | '\\' :: [] => none
  | '\\' :: c :: rest =>
    match escChar c with
    | none => none
    | some ec => (parseStringBody rest).map (fun p => (ec :: p.1, p.2))
  | c :: rest =>
    if c.toNat ≥ 32 then (parseStringBody rest).map (fun p => (c :: p.1, p.2))
    else none

/-- Numeric value of a run of decimal digits. -/
def digitsToNat (ds : Str) : Nat :=
  ds.foldl (fun a c => 10 * a + (c.toNat - 48)) 0

/-- Parses a JSON natural-number token; leading zeros are rejected as
`json.loads` rejects them. -/
def parseNatToken (s : Str) : Option (Nat × Str) :=
  let p := s.span Char.isDigit
  if p.1 = [] then none
  else if 1 < p.1.length ∧ p.1.head? = some '0' then none
  else some (digitsToNat p.1, p.2)

/-- Parses a JSON integer token with an optional leading minus sign. -/
def parseIntToken (s : Str) : Option (Int × Str) :=
  match s with
  | '-' :: rest => (parseNatToken rest).map (fun p => (-(p.1 : Int), p.2))
  | _ => (parseNatToken s).map (fun p => ((p.1 : Int), p.2))

/-- Work items of the fuel-indexed JSON parser: a value, the members of an
object after its opening brace, or the elements of an array after its
opening bracket. -/
inductive ParseJob where
  | value (s : Str)
  | objFields (acc : List (Str × JValue)) (s : Str)
  | arrElems (acc : List JValue) (s : Str)

/-- Fuel-indexed recursive-descent parser for the JSON fragment described in
the module notes; duplicate object keys keep their first position with the
last value, as in Python dict construction. -/
def parseF : Nat → ParseJob → Option (JValue × Str)
  | 0, _ => none
  | Nat.succ fuel, ParseJob.value s =>
    match skipWs s with
    | '\x7b' :: rest =>
      match skipWs rest with
      | '\x7d' :: r => some (JValue.jobj [], r)
      | r => parseF fuel (ParseJob.objFields [] r)
    | '[' :: rest =>
      match skipWs rest with
      | ']' :: r => some (JValue.jarr [], r)
      | r => parseF fuel (ParseJob.arrElems [] r)
    | '"' :: rest => (parseStringBody rest).map (fun p => (JValue.jstr p.1, p.2))
    | 't' :: 'r' :: 'u' :: 'e' :: rest => some (JValue.jbool true, rest)
    | 'f' :: 'a' :: 'l' :: 's' :: 'e' :: rest => some (JValue.jbool false, rest)
    | 'n' :: 'u' :: 'l' :: 'l' :: rest => some (JValue.jnull, rest)
    | rest => (parseIntToken rest).map (fun p => (JValue.jnum p.1, p.2))
  | Nat.succ fuel, ParseJob.objFields acc s =>
    match s with
    | '"' :: rest =>
      match parseStringBody rest with
      | none => none
      | some (key, r1) =>
        match skipWs r1 with
        | ':' :: r2 =>
          match parseF fuel (ParseJob.value r2) with
          | none => none
          | some (v, r3) =>
            match skipWs r3 with
            | ',' :: r4 => parseF fuel (ParseJob.objFields (dset acc key v) (skipWs r4))
            | '\x7d' :: r4 => some (JValue.jobj (dset acc key v), r4)
            | _ => none
        | _ => none
    | _ => none
  | Nat.succ fuel, ParseJob.arrElems acc s =>
    match parseF fuel (ParseJob.value s) with
    | none => none
    | some (v, r1) =>
      match skipWs r1 with
      | ',' :: r2 => parseF fuel (ParseJob.arrElems (acc ++ [v]) r2)
      | ']' :: r2 => some (JValue.jarr (acc ++ [v]), r2)
      | _ => none

/-- Model of `json.loads`: parses one JSON value and requires the remainder
to be whitespace, exactly as `json.loads` rejects trailing content. -/
def parseJson (s : Str) : Option JValue :=
  match parseF (2 * s.length + 2) (ParseJob.value s) with
  | some (v, rest) => if skipWs rest = [] then some v else none
  | none => none

/-! ## Dict keys used by the analyzers -/

def kIsDeepfake : Str := "is_deepfake".data
def kConfidence : Str := "confidence_score".data
def kAnalysis : Str := "analysis".data
def kIndicators : Str := "indicators".data
def kSuspiciousAreas : Str := "suspicious_areas".data
def kFrameAnalysis : Str := "frame_analysis".data
def kTotalFrames : Str := "total_frames".data
def kSuspiciousFrames : Str := "suspicious_frames".data
def kFrameDetails : Str := "frame_details".data
def kFrameNumber : Str := "frame_number".data
def kIsSuspicious : Str := "is_suspicious".data
def kNote : Str := "note".data
def kError : Str := "error".data
def kMediaType : Str := "media_type".data
def kFilePath : Str := "file_path".data

/-! ## Shared JSON extraction (`ImageAnalyzer.analyze` lines 57-69,
`VideoAnalyzer.analyze` lines 107-117) -/

/-- JSON extraction attempt of both analyzers: `json_start = text.find` of the
opening brace, `json_end = text.rfind` of the closing brace plus one; when
both exist with `json_end > json_start` and the span parses under
`json.loads`, the parsed object is the result, otherwise `none` signals the
heuristic fallback (missing braces and `JSONDecodeError` alike). -/
def extractJsonObject (text : Str) : Option (List (Str × JValue)) :=
  match findChar '\x7b' text, rfindChar '\x7d' text with
  | some s, some e =>
    if s < e + 1 then
      match parseJson ((text.drop s).take (e + 1 - s)) with
      | some (JValue.jobj fields) => some fields
      | _ => none
    else none
  | _, _ => none

/-! ## ImageAnalyzer (src/analyze/image_analyzer.py) -/

/-- Classification keyword set of `ImageAnalyzer._parse_text_response`
(line 94). -/
def imageClassificationKeywords : List Str :=
  ["deepfake".data, "ai-generated".data, "artificial".data, "synthetic".data,
   "fake".data, "manipulated".data]

def likelyKeywords : List Str := ["likely".data, "probably".data, "appears".data]

def definitelyKeywords : List Str := ["definitely".data, "clearly".data, "obvious".data]

def possiblyKeywords : List Str := ["possibly".data, "might".data, "could".data]

/-- Confidence estimation of `ImageAnalyzer._parse_text_response` (lines
97-103): three checks in fixed order, each unconditionally reassigning. -/
def estimateTextConfidence (lt : Str) : Int :=
  let c : Int := 0
  let c : Int := if containsAny likelyKeywords lt then 65 else c
  let c : Int := if containsAny definitelyKeywords lt then 85 else c
  let c : Int := if containsAny possiblyKeywords lt then 40 else c
  c

/-- Indicator keyword set of the image heuristic (lines 108-109). -/
def imageIndicatorKeywords : List Str :=
  ["inconsistent".data, "unnatural".data, "artifact".data, "blurr".data,
   "warp".data, "irregular".data]

/-- Indicator extraction shared by both `_parse_text_response` methods: split
the raw text on periods, keep the stripped segments whose lowercase form
contains an indicator keyword, preserving order. -/
def extractIndicators (kws : List Str) (text : Str) : List Str :=
  ((splitOnChar '.' text).filter (fun s => containsAny kws (lower s))).map strip

/-- `ImageAnalyzer._parse_text_response` (lines 90-118). -/
def imageParseTextResponse (text : Str) : Dict :=
  let lt := lower text
  let isDeepfake := containsAny imageClassificationKeywords lt
  let confidence := estimateTextConfidence lt
  [(kIsDeepfake, JValue.jbool isDeepfake),
   (kConfidence, JValue.jnum (if isDeepfake then confidence else 100 - confidence)),
   (kAnalysis, JValue.jstr text),
   (kIndicators, JValue.jarr (((extractIndicators imageIndicatorKeywords text).take 5).map JValue.jstr)),
   (kSuspiciousAreas, JValue.jarr [])]

/-- Field-completion step of `ImageAnalyzer.analyze` (lines 72-76): the five
`setdefault` calls in source order. -/
def withImageDefaults (result : Dict) (resultText : Str) : Dict :=
  dsetdefault
    (dsetdefault
      (dsetdefault
        (dsetdefault
          (dsetdefault result kIsDeepfake (JValue.jbool false))
          kConfidence (JValue.jnum 0))
        kAnalysis (JValue.jstr resultText))
      kIndicators (JValue.jarr []))
    kSuspiciousAreas (JValue.jarr [])

/-- Normalization step of `ImageAnalyzer.analyze` (lines 56-78): JSON
extraction first, heuristic fallback otherwise, then field completion. -/
def imageNormalize (resultText : Str) : Dict :=
  let result :=
    match extractJsonObject resultText with
    | some fields => fields
    | none => imageParseTextResponse resultText
  withImageDefaults result resultText

/-- Error result of `ImageAnalyzer.analyze` (lines 80-88), returned when
loading the image or calling the remote model raises. -/
def imageErrorDict (e : Str) : Dict :=
  [(kIsDeepfake, JValue.jbool false),
   (kConfidence, JValue.jnum 0),
   (kAnalysis, JValue.jstr ("Error during analysis: ".data ++ e)),
   (kIndicators, JValue.jarr []),
   (kSuspiciousAreas, JValue.jarr []),
   (kError, JValue.jstr e)]

/-- `ImageAnalyzer.analyze`: the remote interaction is an environment-supplied
outcome, either the raw reply text or the message of a raised exception. -/
def imageAnalyzerAnalyze (outcome : Except Str Str) : Dict :=
  match outcome with
  | Except.error e => imageErrorDict e
  | Except.ok resultText => imageNormalize resultText

/-! ## VideoAnalyzer (src/analyze/video_analyzer.py) -/

/-- Frame-level suspicion keywords (`VideoAnalyzer.analyze` lines 64-65). -/
def frameSuspicionKeywords : List Str :=
  ["suspicious".data, "fake".data, "manipulated".data, "artificial".data,
   "unnatural".data]

/-- Classification keywords of `VideoAnalyzer._parse_text_response`
(lines 187-188); a strictly smaller set than the image one. -/
def videoClassificationKeywords : List Str :=
  ["deepfake".data, "fake".data, "manipulated".data, "ai-generated".data]

/-- Indicator keywords of `VideoAnalyzer._parse_text_response`
(lines 194-195). -/
def videoIndicatorKeywords : List Str :=
  ["inconsistent".data, "unnatural".data, "artifact".data,
   "manipulation".data, "suspicious".data]

/-- Test `ratio > 0.3` with `ratio = suspicious / total` (0 when `total` is
0), in exact arithmetic — see the module notes on floats. -/
def ratioGtPoint3 (s t : Nat) : Bool :=
  if 0 < t then decide (3 * t < 10 * s) else false

/-- Floor of `ratio * 100` (Python `int(ratio * 100)`), 0 when `total` is
0 since Python sets `ratio = 0` there. -/
def ratioTimes100 (s t : Nat) : Int :=
  if 0 < t then ((100 * s) / t : Nat) else 0

/-- Floor of `(1 - ratio) * 100`, 100 when `total` is 0. -/
def invRatioTimes100 (s t : Nat) : Int :=
  if 0 < t then (((t - s) * 100) / t : Nat) else 100

/-- `VideoAnalyzer._parse_text_response` (lines 183-203): heuristic fallback
of the aggregate call, driven by the suspicious-frame ratio and its own
keyword set. -/
def videoParseTextResponse (text : Str) (suspiciousCount totalFrames : Nat) : Dict :=
  let lt := lower text
  let isDeepfake :=
    ratioGtPoint3 suspiciousCount totalFrames ||
      containsAny videoClassificationKeywords lt
  let confidence : Int :=
    if isDeepfake then min 95 (ratioTimes100 suspiciousCount totalFrames)
    else max 5 (invRatioTimes100 suspiciousCount totalFrames)
  [(kIsDeepfake, JValue.jbool isDeepfake),
   (kConfidence, JValue.jnum confidence),
   (kAnalysis, JValue.jstr text),
   (kIndicators, JValue.jarr (((extractIndicators videoIndicatorKeywords text).take 5).map JValue.jstr))]

/-- Default confidence of the aggregation merge (`VideoAnalyzer.analyze` line
128): `min(95, (suspicious / total) * 100)`, in exact floored arithmetic. -/
def aggregateDefaultConfidence (s t : Nat) : Int :=
  (min 95 ((100 * s) / t) : Nat)

/-- Outcome of processing one sampled frame: opening the temp image raised,
the remote call raised, or the remote call returned reply text. -/
inductive FrameStep where
  | openFail (e : Str)
  | callFail (e : Str)
  | reply (t : Str)

/-- Per-frame result dict (`VideoAnalyzer.analyze` lines 70-74 and 80-84). -/
def frameResultDict (idx : Nat) (susp : Bool) (note : Str) : JValue :=
  JValue.jobj
    [(kFrameNumber, JValue.jnum (idx + 1)),
     (kIsSuspicious, JValue.jbool susp),
     (kNote, JValue.jstr note)]

/-- State accumulated by the per-frame loop: the frame result dicts in order,
the suspicious tally, the number of remote calls issued, and the temp frame
files unlinked so far (in deletion order). -/
structure FrameLoopState where
  results : List JValue
  suspicious : Nat
  calls : Nat
  deleted : List Str

/-- Per-frame loop of `VideoAnalyzer.analyze` (lines 45-84).  On a reply the
suspicion keywords are tested against the lowercased text, the result is
recorded with the note truncated to 200 characters, and the temp file is
unlinked (line 77).  On a per-frame exception the error result is recorded
and — exactly as in the source, where `os.unlink` sits inside the `try`
before the `except` — the temp file is NOT unlinked. -/
def processFrames (outcome : Nat → FrameStep) : List Str → Nat → FrameLoopState
  | [], _ => ⟨[], 0, 0, []⟩
  | p :: rest, idx =>
    let tail := processFrames outcome rest (idx + 1)
    match outcome idx with
    | FrameStep.openFail e =>
      ⟨frameResultDict idx false ("Error analyzing frame: ".data ++ e) :: tail.results,
       tail.suspicious, tail.calls, tail.deleted⟩
    | FrameStep.callFail e =>
      ⟨frameResultDict idx false ("Error analyzing frame: ".data ++ e) :: tail.results,
       tail.suspicious, tail.calls + 1, tail.deleted⟩
    | FrameStep.reply t =>
      let susp := containsAny frameSuspicionKeywords (lower t)
      ⟨frameResultDict idx susp (t.take 200) :: tail.results,
       (if susp then 1 else 0) + tail.suspicious, tail.calls + 1, p :: tail.deleted⟩

/-- Zero-frames result of `VideoAnalyzer.analyze` (lines 32-39); note that no
error key is present. -/
def zeroFramesDict : Dict :=
  [(kIsDeepfake, JValue.jbool false),
   (kConfidence, JValue.jnum 0),
   (kAnalysis, JValue.jstr "Could not extract frames from video".data),
   (kIndicators, JValue.jarr []),
   (kFrameAnalysis, JValue.jobj [(kTotalFrames, JValue.jnum 0), (kSuspiciousFrames, JValue.jnum 0)])]

/-- Error result of `VideoAnalyzer.analyze` (lines 134-142), returned when
the aggregate remote call (or any other uncaught step) raises. -/
def videoErrorDict (e : Str) : Dict :=
  [(kIsDeepfake, JValue.jbool false),
   (kConfidence, JValue.jnum 0),
   (kAnalysis, JValue.jstr ("Error during video analysis: ".data ++ e)),
   (kIndicators, JValue.jarr []),
   (kFrameAnalysis, JValue.jobj [(kTotalFrames, JValue.jnum 0), (kSuspiciousFrames, JValue.jnum 0)]),
   (kError, JValue.jstr e)]

/-- Aggregation merge of `VideoAnalyzer.analyze` (lines 107-131): normalize
the aggregate reply (JSON extraction, then the video heuristic), attach the
frame summary, then fill the four defaults with `setdefault`. -/
def finishVideoResult (overallText : Str) (frameResults : List JValue) (s t : Nat) : Dict :=
  let base :=
    match extractJsonObject overallText with
    | some fields => fields
    | none => videoParseTextResponse overallText s t
  let r1 := dset base kFrameAnalysis
    (JValue.jobj
      [(kTotalFrames, JValue.jnum t),
       (kSuspiciousFrames, JValue.jnum s),
       (kFrameDetails, JValue.jarr frameResults)])
  let r2 := dsetdefault r1 kIsDeepfake (JValue.jbool (ratioGtPoint3 s t))
  let r3 := dsetdefault r2 kConfidence (JValue.jnum (aggregateDefaultConfidence s t))
  let r4 := dsetdefault r3 kAnalysis (JValue.jstr overallText)
  dsetdefault r4 kIndicators (JValue.jarr [])

/-- Environment of one `VideoAnalyzer.analyze` run: the temp frame paths
returned by `_extract_frames`, the outcome of each per-frame interaction,
and the outcome of the aggregate remote call. -/
structure VideoEnv where
  frames : List Str
  frameOutcome : Nat → FrameStep
  overallReply : Except Str Str

/-- Observable result of one `VideoAnalyzer.analyze` run: the returned dict,
how many remote model calls were issued (attempted calls included), and
which temp frame files were deleted. -/
structure VideoRun where
  result : Dict
  remoteCalls : Nat
  deleted : List Str

/-- `VideoAnalyzer.analyze` (lines 17-142).  Zero sampled frames
short-circuit before any remote interaction; otherwise the per-frame loop
runs, the aggregate call is issued, and its reply (or exception) produces
the final dict. -/
def videoAnalyze (env : VideoEnv) : VideoRun :=
  if env.frames = [] then ⟨zeroFramesDict, 0, []⟩
  else
    let st := processFrames env.frameOutcome env.frames 0
    match env.overallReply with
    | Except.error e => ⟨videoErrorDict e, st.calls + 1, st.deleted⟩
    | Except.ok text =>
      ⟨finishVideoResult text st.results st.suspicious env.frames.length,
       st.calls + 1, st.deleted⟩

/-! ## Frame sampler (`VideoAnalyzer._extract_frames`, lines 144-181) -/

/-- While-loop of `_extract_frames` (lines 161-174): reads frames in stream
order, keeps those whose running counter is divisible by the interval, and
stops once the cap is reached or the stream ends. -/
def extractLoop (interval maxFrames : Nat) : List Str → Nat → Nat → List Str
  | [], _, _ => []
  | f :: rest, frameCount, extracted =>
    if extracted < maxFrames then
      if frameCount % interval = 0 then
        f :: extractLoop interval maxFrames rest (frameCount + 1) (extracted + 1)
      else extractLoop interval maxFrames rest (frameCount + 1) extracted
    else []

/-- `VideoAnalyzer._extract_frames`: `stream` is the sequence of decodable
frames the capture yields (already materialized as temp paths),
`reportedTotal` is the frame count the container reports; a video that
cannot be opened reports 0 (OpenCV returns 0 for properties of an unopened
capture), and 0 short-circuits to the empty list (lines 152-153). -/
def extractFrames (stream : List Str) (reportedTotal maxFrames : Nat) : List Str :=
  if reportedTotal = 0 then []
  else extractLoop (max 1 (reportedTotal / maxFrames)) maxFrames stream 0 0

/-- Pairs each stream element with its running frame counter, starting at
`k` — the reference sequence against which the sampler loop is specified. -/
def enumIdx (k : Nat) : List Str → List (Nat × Str)
  | [] => []
  | x :: xs => (k, x) :: enumIdx (k + 1) xs

/-! ## MediaHandler and DeepfakeDetector (src/utils/media_io.py,
src/utils/detect.py) -/

def imageExtensions : List Str :=
  [".jpg".data, ".jpeg".data, ".png".data, ".webp".data, ".bmp".data, ".gif".data]

def videoExtensions : List Str :=
  [".mp4".data, ".avi".data, ".mov".data, ".mkv".data, ".flv".data, ".wmv".data]

/-- Final path component (model of `pathlib.Path(p).name` for the plain
slash-separated paths used here). -/
def lastComponent (p : Str) : Str :=
  ((splitOnChar '/' p).getLast?).getD []

/-- Model of `pathlib.Path(p).suffix`: the final extension of the last
component, empty for names with no dot, a leading dot only, or a trailing
dot — following the pathlib source condition `0 < i < len(name) - 1`. -/
def pathSuffix (p : Str) : Str :=
  let name := lastComponent p
  match rfindChar '.' name with
  | some i => if 0 < i ∧ i + 1 < name.length then name.drop i else []
  | none => []

/-- `MediaHandler.is_image`: extension membership, case-insensitive. -/
def isImagePath (p : Str) : Bool :=
  (lower (pathSuffix p)) ∈ imageExtensions

/-- `MediaHandler.is_video`: extension membership, case-insensitive. -/
def isVideoPath (p : Str) : Bool :=
  (lower (pathSuffix p)) ∈ videoExtensions

/-- Environment of the detector facade: file-system and decoder facts plus
the remote interactions, one image outcome and one video environment per
path. -/
structure Env where
  fileExists : Str → Bool
  imageDecodes : Str → Bool
  videoOpensAndReads : Str → Bool
  imageOutcome : Str → Except Str Str
  videoEnv : Str → VideoEnv

/-- `MediaHandler.validate_image`: existence, extension, then decodability;
every failure (exceptions included) yields `false`. -/
def validateImage (env : Env) (p : Str) : Bool :=
  env.fileExists p && isImagePath p && env.imageDecodes p

/-- `MediaHandler.validate_video`: existence, extension, then opening the
stream and reading one frame; every failure yields `false`. -/
def validateVideo (env : Env) (p : Str) : Bool :=
  env.fileExists p && isVideoPath p && env.videoOpensAndReads p

/-- Validation-failure result of `DeepfakeDetector.analyze_image`
(lines 40-47). -/
def imageValidationFailDict : Dict :=
  [(kIsDeepfake, JValue.jbool false),
   (kConfidence, JValue.jnum 0),
   (kAnalysis, JValue.jstr "Invalid image file".data),
   (kIndicators, JValue.jarr []),
   (kError, JValue.jstr "File validation failed".data)]

/-- Validation-failure result of `DeepfakeDetector.analyze_video`
(lines 70-78). -/
def videoValidationFailDict : Dict :=
  [(kIsDeepfake, JValue.jbool false),
   (kConfidence, JValue.jnum 0),
   (kAnalysis, JValue.jstr "Invalid video file".data),
   (kIndicators, JValue.jarr []),
   (kFrameAnalysis, JValue.jobj [(kTotalFrames, JValue.jnum 0), (kSuspiciousFrames, JValue.jnum 0)]),
   (kError, JValue.jstr "File validation failed".data)]

/-- `DeepfakeDetector.analyze_image` (lines 29-56): validate, analyze, then
stamp `media_type` and `file_path`. -/
def analyzeImage (env : Env) (p : Str) : Dict :=
  if validateImage env p = false then imageValidationFailDict
  else
    dset (dset (imageAnalyzerAnalyze (env.imageOutcome p)) kMediaType (JValue.jstr "image".data))
      kFilePath (JValue.jstr p)

/-- `DeepfakeDetector.analyze_video` (lines 58-87). -/
def analyzeVideo (env : Env) (p : Str) : Dict :=
  if validateVideo env p = false then videoValidationFailDict
  else
    dset (dset (videoAnalyze (env.videoEnv p)).result kMediaType (JValue.jstr "video".data))
      kFilePath (JValue.jstr p)

/-- Unknown-file-type entry of `DeepfakeDetector.batch_analyze`
(lines 109-112): only two keys, no defaults. -/
def unknownFileTypeDict (p : Str) : Dict :=
  [(kError, JValue.jstr "Unknown file type".data),
   (kFilePath, JValue.jstr p)]

/-- `DeepfakeDetector.batch_analyze` (lines 89-120): routes each path by
`media_type`, one result per path in input order. Any `media_type` other
than the exact strings `auto` and `image` takes the final `else` branch. -/
def batchAnalyze (env : Env) (paths : List Str) (mediaType : Str) : List Dict :=
  paths.map (fun p =>
    if mediaType = "auto".data then
      if isImagePath p then analyzeImage env p
      else if isVideoPath p then analyzeVideo env p
      else unknownFileTypeDict p
    else if mediaType = "image".data then analyzeImage env p
    else analyzeVideo env p)

/-! ## Concrete inputs used by the witnesses and counterexamples below -/

def c1Pre : Str := "Sure, here is my verdict: ".data

def c1Mid : Str := "\"is_deepfake\": true, \"confidence_score\": 87".data

def c1Post : Str := " Hope this helps.".data

def c1Raw : Str := c1Pre ++ ('\x7b' :: (c1Mid ++ ['\x7d'])) ++ c1Post

def c1Fields : List (Str × JValue) :=
  [(kIsDeepfake, JValue.jbool true), (kConfidence, JValue.jnum 87)]

/-- Video run whose frame sampling yielded zero frames. -/
def c5EmptyEnv : VideoEnv :=
  ⟨[], fun _ => FrameStep.reply [], Except.ok []⟩

/-- Video run with one sampled frame whose analysis raises. -/
def c6LeakEnv : VideoEnv :=
  ⟨["/tmp/frame0.jpg".data],
   fun _ => FrameStep.openFail "cannot identify image file".data,
   Except.ok "No issues found".data⟩

/-- Facade environment where every file exists and decodes but every remote
interaction raises. -/
def c7Env : Env :=
  ⟨fun _ => true, fun _ => true, fun _ => true,
   fun _ => Except.error "API quota exceeded".data,
   fun _ => ⟨["f0.jpg".data], fun _ => FrameStep.reply "fine".data,
     Except.error "network unreachable".data⟩⟩

/-- Seven-frame stream used by the sampler witness. -/
def c8Stream : List Str :=
  ["fa".data, "fb".data, "fc".data, "fd".data, "fe".data, "ff".data, "fg".data]

/-- Facade environment where no file exists, so every analysis returns its
validation-failure dict. -/
def c10TestEnv : Env :=
  ⟨fun _ => false, fun _ => false, fun _ => false,
   fun _ => Except.error [],
   fun _ => ⟨[], fun _ => FrameStep.reply [], Except.ok []⟩⟩

/-! ## Association-list (dict) lemmas -/

theorem dget_dset_self (d : Dict) (k : Str) (v : JValue) :
    dget (dset d k v) k = some v := by
  induction d with
  | nil => simp [dget, dset]
  | cons kv rest ih =>
    obtain ⟨k2, v2⟩ := kv
    by_cases h : k2 = k
    · simp [dget, dset, h]
    · simp [dget, dset, h, ih]

theorem dget_dset_ne (d : Dict) (k k2 : Str) (v : JValue) (hne : k2 ≠ k) :
    dget (dset d k2 v) k = dget d k := by
  have hks : ¬(k = k2) := fun hh => hne hh.symm
  induction d with
  | nil => simp [dget, dset, hne, hks]
  | cons kv rest ih =>
    obtain ⟨k3, v3⟩ := kv
    by_cases h : k3 = k2
    · subst h
      simp [dget, dset, hne, hks]
    · by_cases h2 : k3 = k
      · simp [dget, dset, h, h2, hks]
      · simp [dget, dset, h, h2, hks, ih]

theorem dget_dsetdefault_present (d : Dict) (k k2 : Str) (v v2 : JValue)
    (h : dget d k = some v) : dget (dsetdefault d k2 v2) k = some v := by
  unfold dsetdefault
  cases hx : dget d k2 with
  | some w => exact h
  | none =>
    by_cases he : k2 = k
    · subst he
      rw [hx] at h
      exact absurd h (by simp)
    · rw [dget_dset_ne d k k2 v2 he]
      exact h

theorem dget_dsetdefault_self_absent (d : Dict) (k : Str) (v : JValue)
    (h : dget d k = none) : dget (dsetdefault d k v) k = some v := by
  unfold dsetdefault
  rw [h]
  exact dget_dset_self d k v

theorem dget_dsetdefault_ne (d : Dict) (k k2 : Str) (v : JValue) (hne : k2 ≠ k) :
    dget (dsetdefault d k2 v) k = dget d k := by
  unfold dsetdefault
  cases hx : dget d k2 with
  | some w => rfl
  | none => exact dget_dset_ne d k k2 v hne

theorem dget_dsetdefault_none_ne (d : Dict) (k k2 : Str) (v : JValue)
    (hne : k2 ≠ k) (h : dget d k = none) : dget (dsetdefault d k2 v) k = none := by
  rw [dget_dsetdefault_ne d k k2 v hne]
  exact h

/-! ## Positional lemmas for the brace search -/

theorem findChar_first (c : Char) (pre xs : Str) (h : c ∉ pre) :
    findChar c (pre ++ c :: xs) = some pre.length := by
  induction pre with
  | nil => simp [findChar]
  | cons a pre ih =>
    have ha : ¬(a = c) := fun hh => h (by simp [hh])
    have h2 : c ∉ pre := fun hm => h (List.mem_cons_of_mem a hm)
    simp [findChar, ha, ih h2]

theorem rfindChar_last (c : Char) (pre mid post : Str) (hpost : c ∉ post) :
    rfindChar c (pre ++ (mid ++ [c]) ++ post) = some (pre.length + mid.length) := by
  have hrev : (pre ++ (mid ++ [c]) ++ post).reverse
      = post.reverse ++ c :: (mid.reverse ++ pre.reverse) := by
    simp
  have hpost2 : c ∉ post.reverse := by simpa using hpost
  unfold rfindChar
  rw [hrev, findChar_first c post.reverse _ hpost2]
  simp only [Option.map_some', Option.some.injEq]
  simp
  omega

/-- JSON-extraction lemma: when the raw text is prose without an opening
brace, then a braced span that `json.loads` accepts as an object, then prose
without a closing brace, the first-to-last-brace span is exactly that braced
span and extraction yields its fields. -/
theorem extractJsonObject_spec (pre mid post : Str) (fields : List (Str × JValue))
    (hpre : '\x7b' ∉ pre) (hpost : '\x7d' ∉ post)
    (hparse : parseJson ('\x7b' :: (mid ++ ['\x7d'])) = some (JValue.jobj fields)) :
    extractJsonObject (pre ++ ('\x7b' :: (mid ++ ['\x7d'])) ++ post) = some fields := by
  have hfind : findChar '\x7b' (pre ++ ('\x7b' :: (mid ++ ['\x7d'])) ++ post)
      = some pre.length := by
    have h := findChar_first '\x7b' pre ((mid ++ ['\x7d']) ++ post) hpre
    simpa [List.append_assoc] using h
  have hrfind : rfindChar '\x7d' (pre ++ ('\x7b' :: (mid ++ ['\x7d'])) ++ post)
      = some (pre.length + (mid.length + 1)) := by
    have h := rfindChar_last '\x7d' pre ('\x7b' :: mid) post hpost
    simpa [List.append_assoc] using h
  have hdrop : ((pre ++ ('\x7b' :: (mid ++ ['\x7d'])) ++ post).drop pre.length)
      = ('\x7b' :: (mid ++ ['\x7d'])) ++ post := by
    rw [List.append_assoc]
    exact List.drop_left pre _
  have htake : ((('\x7b' :: (mid ++ ['\x7d'])) ++ post).take (mid.length + 2))
      = '\x7b' :: (mid ++ ['\x7d']) := by
    have h2 : ('\x7b' :: (mid ++ ['\x7d'])).length = mid.length + 2 := by simp
    rw [← h2]
    exact List.take_left _ _
  have harith : pre.length + (mid.length + 1) + 1 - pre.length = mid.length + 2 := by omega
  have hcond : pre.length < pre.length + (mid.length + 1) + 1 := by omega
  unfold extractJsonObject
  rw [hfind, hrfind]
  simp only [if_pos hcond, hdrop, harith, htake, hparse]

/-! ## Field-completion lemmas for the image normalizer -/

theorem dget_withImageDefaults_present (d : Dict) (rt k : Str) (v : JValue)
    (h : dget d k = some v) : dget (withImageDefaults d rt) k = some v := by
  unfold withImageDefaults
  exact dget_dsetdefault_present _ _ _ _ _
    (dget_dsetdefault_present _ _ _ _ _
      (dget_dsetdefault_present _ _ _ _ _
        (dget_dsetdefault_present _ _ _ _ _
          (dget_dsetdefault_present _ _ _ _ _ h))))

theorem dget_withImageDefaults_isDeepfake (d : Dict) (rt : Str)
    (h : dget d kIsDeepfake = none) :
    dget (withImageDefaults d rt) kIsDeepfake = some (JValue.jbool false) := by
  unfold withImageDefaults
  apply dget_dsetdefault_present
  apply dget_dsetdefault_present
  apply dget_dsetdefault_present
  apply dget_dsetdefault_present
  exact dget_dsetdefault_self_absent _ _ _ h

theorem dget_withImageDefaults_confidence (d : Dict) (rt : Str)
    (h : dget d kConfidence = none) :
    dget (withImageDefaults d rt) kConfidence = some (JValue.jnum 0) := by
  unfold withImageDefaults
  apply dget_dsetdefault_present
  apply dget_dsetdefault_present
  apply dget_dsetdefault_present
  exact dget_dsetdefault_self_absent _ _ _
    (dget_dsetdefault_none_ne _ _ _ _ (by decide) h)

theorem dget_withImageDefaults_analysis (d : Dict) (rt : Str)
    (h : dget d kAnalysis = none) :
    dget (withImageDefaults d rt) kAnalysis = some (JValue.jstr rt) := by
  unfold withImageDefaults
  apply dget_dsetdefault_present
  apply dget_dsetdefault_present
  exact dget_dsetdefault_self_absent _ _ _
    (dget_dsetdefault_none_ne _ _ _ _ (by decide)
      (dget_dsetdefault_none_ne _ _ _ _ (by decide) h))

theorem dget_withImageDefaults_indicators (d : Dict) (rt : Str)
    (h : dget d kIndicators = none) :
    dget (withImageDefaults d rt) kIndicators = some (JValue.jarr []) := by
  unfold withImageDefaults
  apply dget_dsetdefault_present
  exact dget_dsetdefault_self_absent _ _ _
    (dget_dsetdefault_none_ne _ _ _ _ (by decide)
      (dget_dsetdefault_none_ne _ _ _ _ (by decide)
        (dget_dsetdefault_none_ne _ _ _ _ (by decide) h)))

theorem dget_withImageDefaults_suspiciousAreas (d : Dict) (rt : Str)
    (h : dget d kSuspiciousAreas = none) :
    dget (withImageDefaults d rt) kSuspiciousAreas = some (JValue.jarr []) := by
  unfold withImageDefaults
  exact dget_dsetdefault_self_absent _ _ _
    (dget_dsetdefault_none_ne _ _ _ _ (by decide)
      (dget_dsetdefault_none_ne _ _ _ _ (by decide)
        (dget_dsetdefault_none_ne _ _ _ _ (by decide)
          (dget_dsetdefault_none_ne _ _ _ _ (by decide) h))))

/-! ## Claim C1 -/

/-- C1: for every raw model reply built of prose without an opening brace,
then a single well-formed JSON object, then prose without a closing brace,
the normalization step of image analysis parses exactly the span from the
first opening to the last closing brace and returns a result whose
structured fields match the parsed object, with the fixed defaults (false,
0, raw text, empty lists) filled in only for absent fields, and present
fields never overwritten. -/
theorem c1_json_extraction (pre mid post raw : Str) (fields : List (Str × JValue))
    (hraw : raw = pre ++ ('\x7b' :: (mid ++ ['\x7d'])) ++ post)
    (hpre : '\x7b' ∉ pre) (hpost : '\x7d' ∉ post)
    (hparse : parseJson ('\x7b' :: (mid ++ ['\x7d'])) = some (JValue.jobj fields)) :
    (∀ k v, dget fields k = some v → dget (imageNormalize raw) k = some v) ∧
    (dget fields kIsDeepfake = none →
      dget (imageNormalize raw) kIsDeepfake = some (JValue.jbool false)) ∧
    (dget fields kConfidence = none →
      dget (imageNormalize raw) kConfidence = some (JValue.jnum 0)) ∧
    (dget fields kAnalysis = none →
      dget (imageNormalize raw) kAnalysis = some (JValue.jstr raw)) ∧
    (dget fields kIndicators = none →
      dget (imageNormalize raw) kIndicators = some (JValue.jarr [])) ∧
    (dget fields kSuspiciousAreas = none →
      dget (imageNormalize raw) kSuspiciousAreas = some (JValue.jarr [])) := by
  have hx : imageNormalize raw = withImageDefaults fields raw := by
    rw [hraw]
    unfold imageNormalize
    rw [extractJsonObject_spec pre mid post fields hpre hpost hparse]
  simp only [hx]
  exact ⟨fun k v h => dget_withImageDefaults_present fields raw k v h,
    fun h => dget_withImageDefaults_isDeepfake fields raw h,
    fun h => dget_withImageDefaults_confidence fields raw h,
    fun h => dget_withImageDefaults_analysis fields raw h,
    fun h => dget_withImageDefaults_indicators fields raw h,
    fun h => dget_withImageDefaults_suspiciousAreas fields raw h⟩

/-- C1 witness: a concrete reply with prose around one JSON object; the two
supplied fields are copied, the three absent fields take their defaults. -/
theorem c1_json_extraction_witness :
    parseJson ('\x7b' :: (c1Mid ++ ['\x7d'])) = some (JValue.jobj c1Fields) ∧
    dget (imageNormalize c1Raw) kIsDeepfake = some (JValue.jbool true) ∧
    dget (imageNormalize c1Raw) kConfidence = some (JValue.jnum 87) ∧
    dget (imageNormalize c1Raw) kAnalysis = some (JValue.jstr c1Raw) ∧
    dget (imageNormalize c1Raw) kIndicators = some (JValue.jarr []) ∧
    dget (imageNormalize c1Raw) kSuspiciousAreas = some (JValue.jarr []) := by
  have h := c1_json_extraction c1Pre c1Mid c1Post c1Raw c1Fields rfl
    (by decide) (by decide) (by rfl)
  exact ⟨by rfl, h.1 kIsDeepfake _ (by rfl), h.1 kConfidence _ (by rfl),
    h.2.2.2.1 (by rfl), h.2.2.2.2.1 (by rfl), h.2.2.2.2.2 (by rfl)⟩

/-! ## Claim C2 -/

/-- C2 counterexample: on the JSON-extraction path the confidence value is
copied verbatim from the model reply, so a reply announcing confidence 150
produces a result outside the interval claimed for every code path. -/
theorem c2_confidence_range_counterexample :
    dget (imageNormalize "\x7b\"confidence_score\": 150\x7d".data) kConfidence =
      some (JValue.jnum 150) ∧ ¬((150 : Int) ≤ 100) :=
  ⟨by rfl, by decide⟩

theorem estimateTextConfidence_cases (lt : Str) :
    estimateTextConfidence lt = 0 ∨ estimateTextConfidence lt = 65 ∨
    estimateTextConfidence lt = 85 ∨ estimateTextConfidence lt = 40 := by
  unfold estimateTextConfidence
  by_cases h1 : containsAny likelyKeywords lt = true <;>
    by_cases h2 : containsAny definitelyKeywords lt = true <;>
      by_cases h3 : containsAny possiblyKeywords lt = true <;>
        simp [h1, h2, h3]

theorem ratioTimes100_nonneg (s t : Nat) : 0 ≤ ratioTimes100 s t := by
  unfold ratioTimes100
  split
  · exact Int.natCast_nonneg _
  · norm_num

theorem invRatioTimes100_nonneg (s t : Nat) : 0 ≤ invRatioTimes100 s t := by
  unfold invRatioTimes100
  split
  · exact Int.natCast_nonneg _
  · norm_num

theorem invRatioTimes100_le (s t : Nat) : invRatioTimes100 s t ≤ 100 := by
  unfold invRatioTimes100
  split
  · next ht =>
    have h1 : (t - s) * 100 ≤ t * 100 := Nat.mul_le_mul_right 100 (Nat.sub_le t s)
    have h2 : (t - s) * 100 / t ≤ t * 100 / t := Nat.div_le_div_right h1
    have h3 : t * 100 / t = 100 := Nat.mul_div_cancel_left 100 ht
    rw [h3] at h2
    exact_mod_cast h2
  · norm_num

/-- C2 amended: the confidence lies within the unit-percentage interval on
the heuristic fallbacks of both analyzers, on the video aggregation default,
and on every error and validation-failure path; the JSON-extraction path
instead passes the model-supplied value through unconstrained (see the
counterexample). -/
theorem c2_amended_confidence_ranges :
    (∀ text : Str, ∃ c : Int,
      dget (imageParseTextResponse text) kConfidence = some (JValue.jnum c) ∧
      0 ≤ c ∧ c ≤ 100) ∧
    (∀ (text : Str) (s t : Nat), ∃ c : Int,
      dget (videoParseTextResponse text s t) kConfidence = some (JValue.jnum c) ∧
      0 ≤ c ∧ c ≤ 100) ∧
    (∀ s t : Nat, 0 ≤ aggregateDefaultConfidence s t ∧
      aggregateDefaultConfidence s t ≤ 100) ∧
    (∀ e : Str, dget (imageErrorDict e) kConfidence = some (JValue.jnum 0) ∧
      dget (videoErrorDict e) kConfidence = some (JValue.jnum 0)) ∧
    dget zeroFramesDict kConfidence = some (JValue.jnum 0) ∧
    dget imageValidationFailDict kConfidence = some (JValue.jnum 0) ∧
    dget videoValidationFailDict kConfidence = some (JValue.jnum 0) := by
  refine ⟨fun text => ⟨_, rfl, ?_, ?_⟩, fun text s t => ⟨_, rfl, ?_, ?_⟩,
    fun s t => ⟨?_, ?_⟩, fun e => ⟨rfl, rfl⟩, rfl, rfl, rfl⟩
  · rcases estimateTextConfidence_cases (lower text) with h | h | h | h <;>
      rw [h] <;> split <;> omega
  · rcases estimateTextConfidence_cases (lower text) with h | h | h | h <;>
      rw [h] <;> split <;> omega
  · split
    · exact le_min (by norm_num) (ratioTimes100_nonneg s t)
    · exact le_trans (by norm_num) (le_max_left 5 _)
  · split
    · exact le_trans (min_le_left _ _) (by norm_num)
    · exact max_le (by norm_num) (invRatioTimes100_le s t)
  · exact Int.natCast_nonneg _
  · have h : (min 95 (100 * s / t) : Nat) ≤ 95 := Nat.min_le_left _ _
    unfold aggregateDefaultConfidence
    have h2 : ((min 95 (100 * s / t) : Nat) : Int) ≤ 95 := by exact_mod_cast h
    omega

/-! ## Claim C3 -/

/-- C3 counterexample: the keyword "synthetic" is in the claimed fixed set,
yet the video-aggregate heuristic (which uses its own smaller keyword set)
classifies the text as not manipulated. -/
theorem c3_keyword_counterexample :
    containsAny imageClassificationKeywords (lower "The face is synthetic".data) = true ∧
    dget (videoParseTextResponse "The face is synthetic".data 0 5) kIsDeepfake =
      some (JValue.jbool false) :=
  ⟨by decide, by rfl⟩

/-- C3 amended: the image heuristic classifies by the fixed six-keyword set
exactly as claimed, but the video-aggregate heuristic uses only the four
keywords deepfake, fake, manipulated, ai-generated, disjoined with the
suspicious-frame-ratio test. -/
theorem c3_amended_classification :
    (∀ text : Str, dget (imageParseTextResponse text) kIsDeepfake =
      some (JValue.jbool (containsAny imageClassificationKeywords (lower text)))) ∧
    (∀ (text : Str) (s t : Nat), dget (videoParseTextResponse text s t) kIsDeepfake =
      some (JValue.jbool (ratioGtPoint3 s t ||
        containsAny videoClassificationKeywords (lower text)))) :=
  ⟨fun _ => rfl, fun _ _ _ => rfl⟩

/-! ## Claim C4 -/

/-- C4: the three confidence checks run in the fixed order
likely-family (65), definitely-family (85), possibly-family (40), each
unconditionally overwriting, so a text matching both the likely and the
definitely families with no possibly-family word computes confidence 85,
not 65; the returned confidence is 85 when the text is also classified
deepfake, its inversion 15 otherwise. -/
theorem c4_confidence_check_order (text : Str)
    (_h1 : containsAny likelyKeywords (lower text) = true)
    (h2 : containsAny definitelyKeywords (lower text) = true)
    (h3 : containsAny possiblyKeywords (lower text) = false) :
    estimateTextConfidence (lower text) = 85 ∧
    dget (imageParseTextResponse text) kConfidence =
      some (JValue.jnum (if containsAny imageClassificationKeywords (lower text)
        then 85 else 15)) := by
  have hc : estimateTextConfidence (lower text) = 85 := by
    simp [estimateTextConfidence, h2, h3]
  have hd : dget (imageParseTextResponse text) kConfidence =
      some (JValue.jnum (if containsAny imageClassificationKeywords (lower text)
        then estimateTextConfidence (lower text)
        else 100 - estimateTextConfidence (lower text))) := rfl
  rw [hd, hc]
  constructor
  · rfl
  · norm_num

/-- C4 witness: the text "clearly likely" matches both families, no
possibly-family word, and computes confidence 85. -/
theorem c4_confidence_check_order_witness :
    containsAny likelyKeywords (lower "clearly likely".data) = true ∧
    containsAny definitelyKeywords (lower "clearly likely".data) = true ∧
    containsAny possiblyKeywords (lower "clearly likely".data) = false ∧
    estimateTextConfidence (lower "clearly likely".data) = 85 ∧
    dget (imageParseTextResponse "clearly likely".data) kConfidence =
      some (JValue.jnum (if containsAny imageClassificationKeywords
        (lower "clearly likely".data) then 85 else 15)) := by
  have h := c4_confidence_check_order "clearly likely".data
    (by decide) (by decide) (by decide)
  exact ⟨by decide, by decide, by decide, h.1, h.2⟩

/-! ## Claim C5 -/

/-- C5 counterexample: a zero-frame run returns the could-not-analyze dict
with NO error key present, although the claim requires the error field to
be set; the frame summary zeros and the absence of remote calls do hold. -/
theorem c5_zero_frames_counterexample :
    (videoAnalyze c5EmptyEnv).result = zeroFramesDict ∧
    dget (videoAnalyze c5EmptyEnv).result kError = none ∧
    (videoAnalyze c5EmptyEnv).remoteCalls = 0 :=
  ⟨rfl, rfl, rfl⟩

/-- C5 amended: every video analysis whose frame sampling yields zero frames
short-circuits to the fixed could-not-analyze result — is_deepfake false,
confidence 0, explanatory analysis, frame summary zeros — with no error
field set, no remote model call made and no file deleted. -/
theorem c5_zero_frames (env : VideoEnv) (h : env.frames = []) :
    videoAnalyze env = ⟨zeroFramesDict, 0, []⟩ ∧
    dget zeroFramesDict kError = none ∧
    dget zeroFramesDict kIsDeepfake = some (JValue.jbool false) ∧
    dget zeroFramesDict kConfidence = some (JValue.jnum 0) ∧
    dget zeroFramesDict kAnalysis =
      some (JValue.jstr "Could not extract frames from video".data) ∧
    dget zeroFramesDict kFrameAnalysis =
      some (JValue.jobj [(kTotalFrames, JValue.jnum 0), (kSuspiciousFrames, JValue.jnum 0)]) := by
  refine ⟨?_, rfl, rfl, rfl, rfl, rfl⟩
  simp [videoAnalyze, h]

/-- C5 witness: the amended statement at the concrete empty-frame run. -/
theorem c5_zero_frames_witness :
    c5EmptyEnv.frames = [] ∧ videoAnalyze c5EmptyEnv = ⟨zeroFramesDict, 0, []⟩ :=
  ⟨rfl, (c5_zero_frames c5EmptyEnv rfl).1⟩

/-! ## Claim C6 -/

/-- C6: the per-frame error handler records the failure but never unlinks
(the `os.unlink` sits inside the `try` above the `except`), so the sampled
frame file of a failing frame is left behind: this run created one temp
frame file and its deletion log is empty. -/
theorem c6_frame_file_leak :
    c6LeakEnv.frames = ["/tmp/frame0.jpg".data] ∧
    (videoAnalyze c6LeakEnv).deleted = [] ∧
    (videoAnalyze c6LeakEnv).remoteCalls = 1 :=
  ⟨rfl, rfl, rfl⟩

/-! ## Claim C7 -/

theorem dget_stamped (d : Dict) (p k : Str) (mt : JValue)
    (h1 : kMediaType ≠ k) (h2 : kFilePath ≠ k) :
    dget (dset (dset d kMediaType mt) kFilePath (JValue.jstr p)) k = dget d k := by
  rw [dget_dset_ne _ _ _ _ h2, dget_dset_ne _ _ _ _ h1]

/-- C7 counterexample: the batch auto-mode unknown-file-type entry has its
error field set but carries none of the claimed safe defaults — the
classification, confidence, analysis and indicators keys are all missing
from the returned dict. -/
theorem c7_error_defaults_counterexample :
    batchAnalyze c7Env ["notes.txt".data] "auto".data =
      [unknownFileTypeDict "notes.txt".data] ∧
    (dget (unknownFileTypeDict "notes.txt".data) kError).isSome = true ∧
    dget (unknownFileTypeDict "notes.txt".data) kIsDeepfake = none ∧
    dget (unknownFileTypeDict "notes.txt".data) kConfidence = none ∧
    dget (unknownFileTypeDict "notes.txt".data) kAnalysis = none ∧
    dget (unknownFileTypeDict "notes.txt".data) kIndicators = none :=
  ⟨by rfl, rfl, rfl, rfl, rfl, rfl⟩

/-- C7 amended: every error verdict the pipeline itself constructs carries
the full set of safe defaults — validation failures and analyzer/aggregate
exceptions, for both media kinds — while the batch auto-mode
unknown-file-type entry carries only the error and file_path keys (and a
JSON-path verdict may echo a model-supplied error key with arbitrary other
fields, which this statement does not constrain). -/
theorem c7_amended_error_defaults :
    (∀ env p, validateImage env p = false →
      analyzeImage env p = imageValidationFailDict) ∧
    (dget imageValidationFailDict kError = some (JValue.jstr "File validation failed".data) ∧
      dget imageValidationFailDict kIsDeepfake = some (JValue.jbool false) ∧
      dget imageValidationFailDict kConfidence = some (JValue.jnum 0) ∧
      dget imageValidationFailDict kAnalysis = some (JValue.jstr "Invalid image file".data) ∧
      "Invalid image file".data ≠ [] ∧
      dget imageValidationFailDict kIndicators = some (JValue.jarr [])) ∧
    (∀ env p, validateVideo env p = false →
      analyzeVideo env p = videoValidationFailDict) ∧
    (dget videoValidationFailDict kError = some (JValue.jstr "File validation failed".data) ∧
      dget videoValidationFailDict kIsDeepfake = some (JValue.jbool false) ∧
      dget videoValidationFailDict kConfidence = some (JValue.jnum 0) ∧
      dget videoValidationFailDict kAnalysis = some (JValue.jstr "Invalid video file".data) ∧
      "Invalid video file".data ≠ [] ∧
      dget videoValidationFailDict kIndicators = some (JValue.jarr [])) ∧
    (∀ env p e, validateImage env p = true → env.imageOutcome p = Except.error e →
      dget (analyzeImage env p) kError = some (JValue.jstr e) ∧
      dget (analyzeImage env p) kIsDeepfake = some (JValue.jbool false) ∧
      dget (analyzeImage env p) kConfidence = some (JValue.jnum 0) ∧
      dget (analyzeImage env p) kAnalysis =
        some (JValue.jstr ("Error during analysis: ".data ++ e)) ∧
      ("Error during analysis: ".data ++ e) ≠ [] ∧
      dget (analyzeImage env p) kIndicators = some (JValue.jarr [])) ∧
    (∀ env p e, validateVideo env p = true → (env.videoEnv p).frames ≠ [] →
      (env.videoEnv p).overallReply = Except.error e →
      dget (analyzeVideo env p) kError = some (JValue.jstr e) ∧
      dget (analyzeVideo env p) kIsDeepfake = some (JValue.jbool false) ∧
      dget (analyzeVideo env p) kConfidence = some (JValue.jnum 0) ∧
      dget (analyzeVideo env p) kAnalysis =
        some (JValue.jstr ("Error during video analysis: ".data ++ e)) ∧
      ("Error during video analysis: ".data ++ e) ≠ [] ∧
      dget (analyzeVideo env p) kIndicators = some (JValue.jarr [])) ∧
    (∀ env p, isImagePath p = false → isVideoPath p = false →
      batchAnalyze env [p] "auto".data = [unknownFileTypeDict p] ∧
      dget (unknownFileTypeDict p) kError = some (JValue.jstr "Unknown file type".data) ∧
      dget (unknownFileTypeDict p) kIsDeepfake = none ∧
      dget (unknownFileTypeDict p) kConfidence = none) := by
  refine ⟨?_, ⟨rfl, rfl, rfl, rfl, by decide, rfl⟩, ?_,
    ⟨rfl, rfl, rfl, rfl, by decide, rfl⟩, ?_, ?_, ?_⟩
  · intro env p h
    simp [analyzeImage, h]
  · intro env p h
    simp [analyzeVideo, h]
  · intro env p e h1 h2
    have hA : analyzeImage env p =
        dset (dset (imageErrorDict e) kMediaType (JValue.jstr "image".data))
          kFilePath (JValue.jstr p) := by
      simp [analyzeImage, h1, imageAnalyzerAnalyze, h2]
    refine ⟨?_, ?_, ?_, ?_, ?_, ?_⟩
    · rw [hA, dget_stamped _ _ _ _ (by decide) (by decide)]; rfl
    · rw [hA, dget_stamped _ _ _ _ (by decide) (by decide)]; rfl
    · rw [hA, dget_stamped _ _ _ _ (by decide) (by decide)]; rfl
    · rw [hA, dget_stamped _ _ _ _ (by decide) (by decide)]; rfl
    · intro hx
      rw [List.append_eq_nil] at hx
      exact absurd hx.1 (by decide)
    · rw [hA, dget_stamped _ _ _ _ (by decide) (by decide)]; rfl
  · intro env p e h1 h2 h3
    have hV : analyzeVideo env p =
        dset (dset (videoErrorDict e) kMediaType (JValue.jstr "video".data))
          kFilePath (JValue.jstr p) := by
      simp [analyzeVideo, h1, videoAnalyze, h2, h3]
    refine ⟨?_, ?_, ?_, ?_, ?_, ?_⟩
    · rw [hV, dget_stamped _ _ _ _ (by decide) (by decide)]; rfl
    · rw [hV, dget_stamped _ _ _ _ (by decide) (by decide)]; rfl
    · rw [hV, dget_stamped _ _ _ _ (by decide) (by decide)]; rfl
    · rw [hV, dget_stamped _ _ _ _ (by decide) (by decide)]; rfl
    · intro hx
      rw [List.append_eq_nil] at hx
      exact absurd hx.1 (by decide)
    · rw [hV, dget_stamped _ _ _ _ (by decide) (by decide)]; rfl
  · intro env p h1 h2
    refine ⟨?_, rfl, rfl, rfl⟩
    simp [batchAnalyze, h1, h2]

/-- C7 witness: the amended statement exercised at concrete inputs — a
rejected path, an image run whose remote call raises, a video run whose
aggregate call raises, and a batch entry with an unknown extension. -/
theorem c7_amended_error_defaults_witness :
    validateImage c7Env "bad.doc".data = false ∧
    analyzeImage c7Env "bad.doc".data = imageValidationFailDict ∧
    analyzeVideo c7Env "bad.doc".data = videoValidationFailDict ∧
    dget (analyzeImage c7Env "sample.jpg".data) kError =
      some (JValue.jstr "API quota exceeded".data) ∧
    dget (analyzeVideo c7Env "sample.mp4".data) kError =
      some (JValue.jstr "network unreachable".data) ∧
    batchAnalyze c7Env ["bad.doc".data] "auto".data =
      [unknownFileTypeDict "bad.doc".data] := by
  refine ⟨by decide, ?_, ?_, ?_, ?_, ?_⟩
  · exact c7_amended_error_defaults.1 c7Env _ (by decide)
  · exact c7_amended_error_defaults.2.2.1 c7Env _ (by decide)
  · exact (c7_amended_error_defaults.2.2.2.2.1 c7Env _ "API quota exceeded".data
      (by decide) rfl).1
  · exact (c7_amended_error_defaults.2.2.2.2.2.1 c7Env _ "network unreachable".data
      (by decide) (by decide) rfl).1
  · exact (c7_amended_error_defaults.2.2.2.2.2.2 c7Env _ (by decide) (by decide)).1

/-! ## Claim C8 -/

theorem extractLoop_spec (interval maxf : Nat) (s : List Str) :
    ∀ (k e : Nat), e ≤ maxf →
    extractLoop interval maxf s k e =
      (((enumIdx k s).filter (fun q => q.1 % interval == 0)).map Prod.snd).take (maxf - e) := by
  induction s with
  | nil =>
    intro k e he
    simp [extractLoop, enumIdx]
  | cons f rest ih =>
    intro k e he
    by_cases he2 : e < maxf
    · by_cases hk : k % interval = 0
      · have hstep : maxf - e = (maxf - (e + 1)) + 1 := by omega
        simp only [extractLoop, if_pos he2, if_pos hk, enumIdx]
        rw [ih (k + 1) (e + 1) (by omega), hstep]
        simp [hk]
      · simp only [extractLoop, if_pos he2, if_neg hk, enumIdx]
        rw [ih (k + 1) e he]
        simp [hk]
    · have he3 : e = maxf := by omega
      simp [extractLoop, he2, he3]

/-- C8: for every stream, reported total and cap of at least one frame, the
sampler computes the interval as the floored quotient clamped to one, keeps
exactly the frames whose running counter is divisible by the interval, up to
the first cap-many of them, returns at most cap-many frames, and returns the
empty sequence (without raising) when the reported total is zero — which is
also what an unopenable capture reports. -/
theorem c8_frame_sampler (stream : List Str) (total maxf : Nat) (_hmf : 1 ≤ maxf) :
    (extractFrames stream total maxf).length ≤ maxf ∧
    (total = 0 → extractFrames stream total maxf = []) ∧
    (0 < total → extractFrames stream total maxf =
      (((enumIdx 0 stream).filter
        (fun q => q.1 % (max 1 (total / maxf)) == 0)).map Prod.snd).take maxf) := by
  by_cases h0 : total = 0
  · simp [extractFrames, h0]
  · have hspec := extractLoop_spec (max 1 (total / maxf)) maxf stream 0 0 (by omega)
    have hEq : extractFrames stream total maxf =
        (((enumIdx 0 stream).filter
          (fun q => q.1 % (max 1 (total / maxf)) == 0)).map Prod.snd).take maxf := by
      unfold extractFrames
      rw [if_neg h0, hspec]
      norm_num
    refine ⟨?_, fun hc => absurd hc h0, fun _ => hEq⟩
    rw [hEq]
    exact List.length_take_le _ _

/-- C8 witness: 23 reported frames, cap 10, a seven-frame stream — the
interval is 2 and the frames at counters 0, 2, 4, 6 are selected. -/
theorem c8_frame_sampler_witness :
    (1 ≤ 10 ∧
      (extractFrames c8Stream 23 10).length ≤ 10 ∧
      ((23 : Nat) = 0 → extractFrames c8Stream 23 10 = []) ∧
      (0 < (23 : Nat) → extractFrames c8Stream 23 10 =
        (((enumIdx 0 c8Stream).filter
          (fun q => q.1 % (max 1 (23 / 10)) == 0)).map Prod.snd).take 10)) ∧
    extractFrames c8Stream 23 10 = ["fa".data, "fc".data, "fe".data, "fg".data] := by
  refine ⟨⟨by decide, ?_⟩, by rfl⟩
  exact c8_frame_sampler c8Stream 23 10 (by decide)

/-! ## Claim C9 -/

/-- C9: a raw text whose lowercased form contains none of the classification
keywords and none of the three confidence keyword families makes the image
heuristic return is_deepfake false with confidence 100 (the inversion
100 - 0), never the canonical could-not-analyze value 0. -/
theorem c9_no_keyword_confidence (text : Str)
    (h1 : containsAny imageClassificationKeywords (lower text) = false)
    (h2 : containsAny likelyKeywords (lower text) = false)
    (h3 : containsAny definitelyKeywords (lower text) = false)
    (h4 : containsAny possiblyKeywords (lower text) = false) :
    dget (imageParseTextResponse text) kIsDeepfake = some (JValue.jbool false) ∧
    dget (imageParseTextResponse text) kConfidence = some (JValue.jnum 100) := by
  have hc : estimateTextConfidence (lower text) = 0 := by
    simp [estimateTextConfidence, h2, h3, h4]
  have hd : dget (imageParseTextResponse text) kIsDeepfake =
      some (JValue.jbool (containsAny imageClassificationKeywords (lower text))) := rfl
  have he : dget (imageParseTextResponse text) kConfidence =
      some (JValue.jnum (if containsAny imageClassificationKeywords (lower text)
        then estimateTextConfidence (lower text)
        else 100 - estimateTextConfidence (lower text))) := rfl
  rw [hd, he, h1, hc]
  simp

/-- C9 witness: the neutral text "hello" matches no keyword family and gets
confidence 100. -/
theorem c9_no_keyword_confidence_witness :
    containsAny imageClassificationKeywords (lower "hello".data) = false ∧
    containsAny likelyKeywords (lower "hello".data) = false ∧
    containsAny definitelyKeywords (lower "hello".data) = false ∧
    containsAny possiblyKeywords (lower "hello".data) = false ∧
    dget (imageParseTextResponse "hello".data) kIsDeepfake = some (JValue.jbool false) ∧
    dget (imageParseTextResponse "hello".data) kConfidence = some (JValue.jnum 100) := by
  have h := c9_no_keyword_confidence "hello".data
    (by decide) (by decide) (by decide) (by decide)
  exact ⟨by decide, by decide, by decide, by decide, h.1, h.2⟩

/-! ## Claim C10 -/

/-- C10: any media_type other than the exact strings auto and image —
arbitrary unrecognized strings included — routes every listed path to video
analysis, and for every media_type the batch result has exactly one entry
per input path in input order. -/
theorem c10_batch_routing (env : Env) (paths : List Str) (mt : Str)
    (h1 : mt ≠ "auto".data) (h2 : mt ≠ "image".data) :
    batchAnalyze env paths mt = paths.map (fun p => analyzeVideo env p) ∧
    ∀ mt2, (batchAnalyze env paths mt2).length = paths.length := by
  constructor
  · simp [batchAnalyze, h1, h2]
  · intro mt2
    simp [batchAnalyze]

/-- C10 witness: the misspelled media_type "vdeo" routes an image-extension
path and an unknown-extension path both to video analysis. -/
theorem c10_batch_routing_witness :
    ("vdeo".data ≠ "auto".data ∧ "vdeo".data ≠ "image".data) ∧
    batchAnalyze c10TestEnv ["a.jpg".data, "b.txt".data] "vdeo".data =
      [analyzeVideo c10TestEnv "a.jpg".data, analyzeVideo c10TestEnv "b.txt".data] ∧
    (batchAnalyze c10TestEnv ["a.jpg".data, "b.txt".data] "auto".data).length = 2 := by
  have h := c10_batch_routing c10TestEnv ["a.jpg".data, "b.txt".data] "vdeo".data
    (by decide) (by decide)
  exact ⟨⟨by decide, by decide⟩, h.1, h.2 "auto".data⟩

end Deepfake
